import Mathlib

/-!
Verification of `subscription_optimizer`: a shallow embedding of
`core/subscription_data_collector.py` (SubscriptionDataCollector) and of the
feature/normalization layer of `core/ai_models.py` (AIModelManager), with
theorems settling the specification's claims about them.

Conventions of the embedding:
* A pandas cell value is `Val` (strings, integers, and `NaN`; pandas fills
  unmatched cells of a left merge with `NaN`).
* A `DataFrame` is a column-name list plus rows; a row is an association
  list from column name to value, and a cell read (`getCell`) defaults to
  `NaN`, as a pandas cell access along aligned columns does.
* The outside world is a parameter: `Http` maps a request to either a
  transport error or a (status code, parsed JSON body as a DataFrame) pair;
  the filesystem is a map from path to optional contents; the clock is a
  day index `today : Nat`, and date formatting (the code's `strftime` of a
  `YYYY-MM-DD` day) is abstracted to the injective decimal rendering
  `fmtDate`.
* Python exceptions become the `PyError` sum and fallible code returns
  `Except PyError _`.
-/

/-- A pandas cell value: string, integer, or NaN (pandas' missing marker). -/
inductive Val where
  | str (s : String)
  | int (n : Int)
  | nan
deriving DecidableEq, Repr

/-- A DataFrame row: an association list from column name to cell value. -/
abbrev Row := List (String × Val)

/-- A pandas DataFrame: named columns and a list of rows. -/
structure DataFrame where
  cols : List String
  rows : List Row
deriving DecidableEq, Repr

/-- First value stored under column `c` in a row. -/
def rowLookup : Row → String → Option Val
  | [], _ => none
  | (k, v) :: r, c => if k = c then some v else rowLookup r c

/-- Read a cell of a row; a column not stored in the row reads as NaN,
as an aligned pandas row does for a missing cell. -/
def getCell (r : Row) (c : String) : Val :=
  (rowLookup r c).getD Val.nan

/-- The Python exceptions raised by `subscription_data_collector.py`:
`FileNotFoundError`, `KeyError` (missing dict key / missing DataFrame
column), and `requests.exceptions.RequestException` (transport failures and
the `HTTPError` of `raise_for_status`). The module defines no further
exception classes of its own. -/
inductive PyError where
  | fileNotFoundError (msg : String)
  | keyError (key : String)
  | requestException (msg : String)
deriving DecidableEq, Repr

/-- Column subselection `df[[c1, ..., ck]]`: raises `KeyError` when a
requested column is absent, else keeps the requested columns in the
requested order. -/
def select (df : DataFrame) (cs : List String) : Except PyError DataFrame :=
  if ∀ c ∈ cs, c ∈ df.cols then
    .ok { cols := cs, rows := df.rows.map (fun r => cs.map (fun c => (c, getCell r c))) }
  else
    .error (.keyError (String.intercalate ", " (cs.filter (fun c => c ∉ df.cols))))

/-- The column label the left operand of `DataFrame.merge` keeps for `c`:
a non-key column also present on the right is suffixed `_x`. -/
def renameL (rightCols : List String) (key c : String) : String :=
  if c ≠ key ∧ c ∈ rightCols then c ++ "_x" else c

/-- The column label the right operand of `DataFrame.merge` keeps for `c`:
a non-key column also present on the left is suffixed `_y`. -/
def renameR (leftCols : List String) (key c : String) : String :=
  if c ≠ key ∧ c ∈ leftCols then c ++ "_y" else c

/-- One output row of a left merge: the left row's cells under their
(possibly `_x`-suffixed) labels, then the right non-key columns under their
(possibly `_y`-suffixed) labels, taken from the matched right row, or NaN
when the left row had no match. -/
def mergedRow (leftCols rightCols : List String) (key : String)
    (l : Row) (m : Option Row) : Row :=
  leftCols.map (fun c => (renameL rightCols key c, getCell l c)) ++
    (rightCols.filter (fun c => c ≠ key)).map
      (fun c => (renameR leftCols key c,
        match m with
        | some r => getCell r c
        | none => Val.nan))

/-- `left.merge(right, on=key, how='left')`: every left row is kept; a left
row matching several right rows (on equal `key` cells) is repeated once per
match, and a left row with no match gets NaN in the right columns. -/
def mergeLeft (left right : DataFrame) (key : String) : DataFrame :=
  { cols :=
      left.cols.map (renameL right.cols key) ++
        (right.cols.filter (fun c => c ≠ key)).map (renameR left.cols key),
    rows :=
      left.rows.flatMap (fun l =>
        match right.rows.filter (fun r => getCell r key = getCell l key) with
        | [] => [mergedRow left.cols right.cols key l none]
        | ms => ms.map (fun r => mergedRow left.cols right.cols key l (some r))) }

/-- `merge(..., on=key)` raises `KeyError` when either operand lacks the
key column. -/
def mergeOn (left right : DataFrame) (key : String) : Except PyError DataFrame :=
  if key ∈ left.cols ∧ key ∈ right.cols then .ok (mergeLeft left right key)
  else .error (.keyError key)

/-- An HTTP GET request as `requests.get` issues it: URL, the bearer token
put into the `Authorization` header, and query parameters. -/
structure Request where
  url : String
  bearer : String
  params : List (String × String)
deriving DecidableEq, Repr

/-- The external transport: a request either fails in transit (message) or
yields a status code and the JSON body already flattened by
`pd.json_normalize`. -/
abbrev Http := Request → Except String (Nat × DataFrame)

/-- Day-index date rendering, standing for `strftime('%Y-%m-%d')` on an
abstract day-granularity clock. -/
def fmtDate (d : Nat) : String := toString d

/-- `requests.get` followed by `raise_for_status`: a transport failure or a
status of 400 and above raises `RequestException`; otherwise the parsed
body is returned. -/
def runRequest (http : Http) (req : Request) : Except PyError DataFrame :=
  match http req with
  | .error msg => .error (.requestException msg)
  | .ok (status, body) =>
      if 400 ≤ status then
        .error (.requestException ("HTTP " ++ toString status ++ " for url: " ++ req.url))
      else
        .ok body

namespace SubscriptionDataCollector

/-- `_load_api_keys`: opens `config_path` (raising `FileNotFoundError` when
it cannot be opened) and then returns a hardcoded mapping, ignoring the
file's contents entirely. -/
def _load_api_keys (fs : String → Option String) (config_path : String) :
    Except PyError (List (String × String)) :=
  match fs config_path with
  | none => .error (.fileNotFoundError ("Configuration file not found at " ++ config_path))
  | some _ =>
      .ok [("salesforce", "your_salesforce_key"),
           ("stripe", "your_stripe_key"),
           ("google_analytics", "your_ga_key")]

/-- The request `fetch_salesforce_data` issues: no query parameters. -/
def salesforceRequest (cred : String) : Request :=
  { url := "https://api.salesforce.com/subscriptions", bearer := cred, params := [] }

/-- The request `fetch_stripe_data` issues: no query parameters. -/
def stripeRequest (cred : String) : Request :=
  { url := "https://api.stripe.com/payments/subscriptions", bearer := cred, params := [] }

/-- The request `fetch_google_analytics_data` issues: `start-date` and
`end-date` query parameters. -/
def gaRequest (cred start_date end_date : String) : Request :=
  { url := "https://api.google-analytics.com/data", bearer := cred,
    params := [("start-date", start_date), ("end-date", end_date)] }

/-- `fetch_salesforce_data`: reads `api_keys['salesforce']` (a missing key
raises `KeyError` before any network activity), issues the GET, and returns
the normalized body. -/
def fetch_salesforce_data (api_keys : List (String × String)) (http : Http) :
    Except PyError DataFrame :=
  match api_keys.lookup "salesforce" with
  | none => .error (.keyError "salesforce")
  | some cred => runRequest http (salesforceRequest cred)

/-- `fetch_stripe_data`: reads `api_keys['stripe']`, issues the GET, and
returns the normalized body. -/
def fetch_stripe_data (api_keys : List (String × String)) (http : Http) :
    Except PyError DataFrame :=
  match api_keys.lookup "stripe" with
  | none => .error (.keyError "stripe")
  | some cred => runRequest http (stripeRequest cred)

/-- `fetch_google_analytics_data`: computes `end_date` as today, reads
`api_keys['google_analytics']`, issues the GET with the date window, and
returns the normalized body. -/
def fetch_google_analytics_data (api_keys : List (String × String)) (http : Http)
    (today : Nat) (start_date : String) : Except PyError DataFrame :=
  let end_date := fmtDate today
  match api_keys.lookup "google_analytics" with
  | none => .error (.keyError "google_analytics")
  | some cred => runRequest http (gaRequest cred start_date end_date)

/-- `collect_all_data`: fetches Salesforce, then Stripe, then Google
Analytics (with `start_date = today - 30 days`), left-merges the Stripe
columns `subscription_id, status, created_at` and then the GA columns
`subscription_id, session_count, revenue` onto the Salesforce rows, and
returns the merged table. The surrounding `try/except` logs and re-raises,
so every error of a step propagates unchanged. -/
def collect_all_data (api_keys : List (String × String)) (http : Http)
    (today : Nat) : Except PyError DataFrame := do
  let salesforce_data ← fetch_salesforce_data api_keys http
  let stripe_data ← fetch_stripe_data api_keys http
  let ga_data ← fetch_google_analytics_data api_keys http today (fmtDate (today - 30))
  let stripeSel ← select stripe_data ["subscription_id", "status", "created_at"]
  let merged1 ← mergeOn salesforce_data stripeSel "subscription_id"
  let gaSel ← select ga_data ["subscription_id", "session_count", "revenue"]
  mergeOn merged1 gaSel "subscription_id"

end SubscriptionDataCollector

namespace AIModelManager

/-!
The second source file, `core/ai_models.py`, is truncated: it ends
mid-statement inside `train_churn_model` (`X_scaled = self.scal`), and the
prediction path is absent altogether. The visible part fixes the feature
list `['revenue', 'session_count', 'status']`, the target `'churn'`, and
the guard `if not self.scaler: self.scaler = StandardScaler()`. The
remainder of the normalization lifecycle below is modelled from the spec.
-/

/-- Errors of the feature/model layer per the spec's taxonomy:
`ShapeMismatchError` for a feature list differing from the fitted one, and
an error for using a predictor before any training fitted a scaler. -/
inductive MLError where
  | shapeMismatchError (fitted requested : List String)
  | notFittedError
deriving DecidableEq, Repr

/-- Modelled from the spec: `NormalizationState` — "mean/scale (or
equivalent) parameters computed once from a training feature matrix",
bound to the feature list used to fit it. The scale is kept as the
per-column population variance (an equivalent parametrization; no claim
depends on the numeric rescaling itself). -/
structure NormalizationState where
  features : List String
  mean : List ℚ
  scaleSq : List ℚ
deriving DecidableEq, Repr

/-- Mean of a list of rationals (0 for the empty list). -/
def listMean (l : List ℚ) : ℚ :=
  if l.length = 0 then 0 else l.sum / l.length

/-- Column `j` of a feature matrix (absent entries read as 0). -/
def colVals (x : List (List ℚ)) (j : Nat) : List ℚ :=
  x.map (fun row => row.getD j 0)

/-- Modelled from the spec: fitting the normalization transform — the
per-column mean and variance of the training matrix, recording the feature
list used. -/
def fitNormalization (features : List String) (x : List (List ℚ)) :
    NormalizationState :=
  { features := features,
    mean := (List.range features.length).map (fun j => listMean (colVals x j)),
    scaleSq := (List.range features.length).map (fun j =>
      listMean ((colVals x j).map (fun v => (v - listMean (colVals x j)) ^ 2))) }

/-- Apply fitted parameters to a matrix: centre by the fitted mean and
divide by the fitted scale, column-wise. -/
def applyNorm (st : NormalizationState) (x : List (List ℚ)) : List (List ℚ) :=
  x.map (fun row =>
    (List.range st.features.length).map (fun j =>
      (row.getD j 0 - st.mean.getD j 0) / st.scaleSq.getD j 1))

/-- Modelled from the spec: `transform` "reuses a previously fitted
NormalizationState and must raise a `ShapeMismatchError` if the requested
feature_list differs in length or names from the one used to fit the
state" (the declared list and its order must be identical, §3). -/
def transform (st : NormalizationState) (feature_list : List String)
    (x : List (List ℚ)) : Except MLError (List (List ℚ)) :=
  if feature_list = st.features then .ok (applyNorm st x)
  else .error (.shapeMismatchError st.features feature_list)

/-- The manager state relevant to normalization: the visible code
initializes `self.scaler = None` in `__init__`. (The `models` dictionary
of the code plays no part in any claim and is omitted.) -/
structure State where
  scaler : Option NormalizationState
deriving DecidableEq, Repr

/-- The manager as constructed: no scaler yet. -/
def init : State := { scaler := none }

/-- Modelled from the spec: the training call. The visible code guards
`if not self.scaler: self.scaler = StandardScaler()`; per the spec the
state is "created on first training call if absent; reused (never refit)
on subsequent training or prediction calls within the same manager
lifetime unless an explicit 'retrain from scratch' is requested". The
truncated body past the guard is modelled accordingly: first call (or
explicit retrain) fits and stores; later calls reuse the fitted state
through the shape-checked `transform`. -/
def train_churn_model (m : State) (feature_list : List String)
    (x : List (List ℚ)) (retrain : Bool) :
    Except MLError (State × List (List ℚ)) :=
  match m.scaler, retrain with
  | some st, false => (transform st feature_list x).map (fun xs => (m, xs))
  | _, _ =>
      let st := fitNormalization feature_list x
      .ok ({ scaler := some st }, applyNorm st x)

/-- Modelled from the spec: prediction normalizes its input through the
already-fitted state (never refitting), shape-checked by `transform`; the
prediction path of the source file is absent (truncated). -/
def predict_churn (m : State) (feature_list : List String)
    (x : List (List ℚ)) : Except MLError (List (List ℚ)) :=
  match m.scaler with
  | none => .error .notFittedError
  | some st => transform st feature_list x

/-- A training or prediction call, as an event of one manager lifetime
(no explicit retrain requested). -/
inductive MLOp where
  | train (feature_list : List String) (x : List (List ℚ))
  | predict (feature_list : List String) (x : List (List ℚ))
deriving DecidableEq, Repr

/-- State evolution of the manager under one call: only a training call
can change the stored scaler (and, absent `retrain`, it reuses an
existing one); predictions never write. -/
def stepOp (m : State) (op : MLOp) : State :=
  match op with
  | .train fs x =>
      match train_churn_model m fs x false with
      | .ok (m', _) => m'
      | .error _ => m
  | .predict _ _ => m

end AIModelManager

/-! ### Concrete transports and tables used to exercise the model -/

deriving instance DecidableEq for Except

/-- The mapping `_load_api_keys` returns for every readable config file. -/
def fixedApiKeys : List (String × String) :=
  [("salesforce", "your_salesforce_key"), ("stripe", "your_stripe_key"),
   ("google_analytics", "your_ga_key")]

/-- Salesforce body of the spec's reconciliation scenario: rows S1 and S2. -/
def sfScenario : DataFrame :=
  ⟨["subscription_id"],
   [[("subscription_id", .str "S1")], [("subscription_id", .str "S2")]]⟩

/-- Stripe body of the scenario: status `active` for S2 only. -/
def stScenario : DataFrame :=
  ⟨["subscription_id", "status", "created_at"],
   [[("subscription_id", .str "S2"), ("status", .str "active"), ("created_at", Val.nan)]]⟩

/-- Google Analytics body of the scenario: revenue 10 and session count 2
for S1 only. -/
def gaScenario : DataFrame :=
  ⟨["subscription_id", "session_count", "revenue"],
   [[("subscription_id", .str "S1"), ("session_count", .int 2), ("revenue", .int 10)]]⟩

/-- A transport answering each source's endpoint with the scenario bodies,
status 200. -/
def httpScenario : Http := fun req =>
  if req.url = "https://api.salesforce.com/subscriptions" then .ok (200, sfScenario)
  else if req.url = "https://api.stripe.com/payments/subscriptions" then .ok (200, stScenario)
  else .ok (200, gaScenario)

/-- A Stripe body with two rows for the same subscription identifier S1. -/
def stDup : DataFrame :=
  ⟨["subscription_id", "status", "created_at"],
   [[("subscription_id", .str "S1"), ("status", .str "active"), ("created_at", .int 1)],
    [("subscription_id", .str "S1"), ("status", .str "past_due"), ("created_at", .int 2)]]⟩

/-- A transport whose Stripe body duplicates subscription S1. -/
def httpDup : Http := fun req =>
  if req.url = "https://api.salesforce.com/subscriptions" then .ok (200, sfScenario)
  else if req.url = "https://api.stripe.com/payments/subscriptions" then .ok (200, stDup)
  else .ok (200, gaScenario)

/-- A Salesforce body that already carries a `status` column, colliding
with the Stripe-contributed `status`. -/
def sfCollide : DataFrame :=
  ⟨["subscription_id", "status"],
   [[("subscription_id", .str "S1"), ("status", .str "trial")]]⟩

/-- A transport whose Salesforce body collides with Stripe on `status`. -/
def httpCollide : Http := fun req =>
  if req.url = "https://api.salesforce.com/subscriptions" then .ok (200, sfCollide)
  else if req.url = "https://api.stripe.com/payments/subscriptions" then .ok (200, stScenario)
  else .ok (200, gaScenario)

/-- A transport on which the usage-analytics endpoint answers HTTP 500 and
the other two answer 200 with the scenario bodies. -/
def httpGA500 : Http := fun req =>
  if req.url = "https://api.google-analytics.com/data" then .ok (500, gaScenario)
  else if req.url = "https://api.stripe.com/payments/subscriptions" then .ok (200, stScenario)
  else .ok (200, sfScenario)

/-- A transport answering every request with 200 and the scenario
Salesforce body. -/
def httpAll200 : Http := fun _ => .ok (200, sfScenario)

/-- The table the spec expects from the reconciliation scenario: S1 keeps
revenue 10 and session count 2 with status missing; S2 keeps status
`active` with revenue and session count missing (NaN, never zero). -/
def scenarioOut : DataFrame :=
  ⟨["subscription_id", "status", "created_at", "session_count", "revenue"],
   [[("subscription_id", .str "S1"), ("status", Val.nan), ("created_at", Val.nan),
     ("session_count", .int 2), ("revenue", .int 10)],
    [("subscription_id", .str "S2"), ("status", .str "active"), ("created_at", Val.nan),
     ("session_count", Val.nan), ("revenue", Val.nan)]]⟩

/-! ### Shared auxiliary facts about the embedding -/

/-- No string suffixed with `_x` equals `subscription_id`. -/
theorem append_x_ne_subscription_id (s : String) : s ++ "_x" ≠ "subscription_id" := by
  intro h
  have h2 := congrArg (fun t => t.data.reverse) h
  simp [String.data_append] at h2

/-- No string suffixed with `_y` equals `subscription_id`. -/
theorem append_y_ne_subscription_id (s : String) : s ++ "_y" ≠ "subscription_id" := by
  intro h
  have h2 := congrArg (fun t => t.data.reverse) h
  simp [String.data_append] at h2

/-- No string suffixed with `_x` equals `status`. -/
theorem append_x_ne_status (s : String) : s ++ "_x" ≠ "status" := by
  intro h
  have h2 := congrArg (fun t => t.data.reverse) h
  simp [String.data_append] at h2

/-- No string suffixed with `_y` equals `status`. -/
theorem append_y_ne_status (s : String) : s ++ "_y" ≠ "status" := by
  intro h
  have h2 := congrArg (fun t => t.data.reverse) h
  simp [String.data_append] at h2

/-- The key-column values of a table's rows, in row order. -/
def keyVals (df : DataFrame) (key : String) : List Val :=
  df.rows.map (fun r => getCell r key)

/-- When the key values of `xs` are pairwise distinct, at most one element
matches any given key value. -/
theorem length_filter_key_le_one {α β : Type} [DecidableEq β] (f : α → β) :
    ∀ (xs : List α), (xs.map f).Nodup → ∀ v,
      (xs.filter (fun x => f x = v)).length ≤ 1 := by
  intro xs
  induction xs with
  | nil => intro _ v; simp
  | cons x t ih =>
    intro hnd v
    rw [List.map_cons, List.nodup_cons] at hnd
    by_cases hx : f x = v
    · have ht : t.filter (fun y => decide (f y = v)) = [] := by
        rw [List.filter_eq_nil_iff]
        intro y hy hfy
        simp at hfy
        exact hnd.1 (hx ▸ hfy ▸ List.mem_map_of_mem f hy)
      simp [List.filter_cons, hx, ht]
    · simpa [List.filter_cons, hx] using ih hnd.2 v

/-- A left merge against a right table with pairwise-distinct key values
has exactly as many rows as the left table. -/
theorem mergeLeft_length (l r : DataFrame) (key : String)
    (hnd : (keyVals r key).Nodup) :
    (mergeLeft l r key).rows.length = l.rows.length := by
  have hone : ∀ lr : Row,
      (match r.rows.filter (fun rr => getCell rr key = getCell lr key) with
        | [] => [mergedRow l.cols r.cols key lr none]
        | ms => ms.map (fun rr => mergedRow l.cols r.cols key lr (some rr))).length = 1 := by
    intro lr
    cases hm : r.rows.filter (fun rr => decide (getCell rr key = getCell lr key)) with
    | nil => simp
    | cons a as =>
      have hle := length_filter_key_le_one (fun rr => getCell rr key) r.rows hnd
        (getCell lr key)
      rw [hm] at hle
      simp at hle
      simp [hle]
  simp only [mergeLeft, List.length_flatMap]
  induction l.rows with
  | nil => simp
  | cons lr t ih => simp [hone lr, ih, Nat.add_comm]

/-- Every row of a left merge arises from a left row, paired with either a
matching right row or no match. -/
theorem mem_mergeLeft {l r : DataFrame} {key : String} {row : Row}
    (h : row ∈ (mergeLeft l r key).rows) :
    ∃ lr ∈ l.rows, ∃ m : Option Row, row = mergedRow l.cols r.cols key lr m := by
  simp only [mergeLeft, List.mem_flatMap] at h
  obtain ⟨lr, hlr, hrow⟩ := h
  cases hm : r.rows.filter (fun rr => decide (getCell rr key = getCell lr key)) with
  | nil =>
    rw [hm] at hrow
    simp at hrow
    exact ⟨lr, hlr, none, hrow⟩
  | cons a as =>
    rw [hm] at hrow
    simp at hrow
    rcases hrow with h1 | ⟨rr, _, hrr⟩
    · exact ⟨lr, hlr, some a, h1⟩
    · exact ⟨lr, hlr, some rr, hrr.symm⟩

/-- Row lookup distributes over append, preferring the earlier entries. -/
theorem rowLookup_append (xs ys : Row) (c : String) :
    rowLookup (xs ++ ys) c = (rowLookup xs c).or (rowLookup ys c) := by
  induction xs with
  | nil => simp [rowLookup]
  | cons p t ih =>
    by_cases hp : p.1 = c
    · simp [rowLookup, hp]
    · simp [rowLookup, hp, ih]

/-- Looking up the join key among the (possibly `_x`-renamed) left labels
finds the left row's key cell, provided the key is a left column and no
`_x`-suffixed label collides with it. -/
theorem rowLookup_leftPart (leftCols rightCols : List String) (key : String)
    (l : Row) (hk : key ∈ leftCols) (hx : ∀ s, s ++ "_x" ≠ key) :
    rowLookup (leftCols.map (fun c => (renameL rightCols key c, getCell l c))) key =
      some (getCell l key) := by
  induction leftCols with
  | nil => cases hk
  | cons c cs ih =>
    by_cases hc : c = key
    · subst hc
      simp [renameL, rowLookup]
    · have hk' : key ∈ cs := by
        cases hk with
        | head => exact absurd rfl hc
        | tail _ h => exact h
      have hlab : renameL rightCols key c ≠ key := by
        unfold renameL
        by_cases hcr : c ≠ key ∧ c ∈ rightCols
        · rw [if_pos hcr]; exact hx c
        · rw [if_neg hcr]; exact hc
      simpa [rowLookup, hlab] using ih hk'

/-- Looking up the join key in a merged row reads the left row's key cell,
provided the key is a left column and no `_x`-suffixed left label collides
with it. -/
theorem getCell_mergedRow_key (leftCols rightCols : List String) (key : String)
    (l : Row) (m : Option Row) (hk : key ∈ leftCols)
    (hx : ∀ s, s ++ "_x" ≠ key) :
    getCell (mergedRow leftCols rightCols key l m) key = getCell l key := by
  have h := rowLookup_leftPart leftCols rightCols key l hk hx
  unfold mergedRow
  simp only [getCell] at h ⊢
  rw [rowLookup_append, h]
  rfl

/-- The key cell of every merged row is the key cell of some left row. -/
theorem mergeLeft_key_sub {l r : DataFrame} {key : String}
    (hk : key ∈ l.cols) (hx : ∀ s, s ++ "_x" ≠ key) :
    ∀ row ∈ (mergeLeft l r key).rows, getCell row key ∈ keyVals l key := by
  intro row hrow
  obtain ⟨lr, hlr, m, rfl⟩ := mem_mergeLeft hrow
  rw [getCell_mergedRow_key l.cols r.cols key lr m hk hx]
  exact List.mem_map_of_mem _ hlr

/-- The join key survives a merge as a column of the result. -/
theorem key_mem_mergeLeft_cols {l : DataFrame} (r : DataFrame) {key : String}
    (hk : key ∈ l.cols) : key ∈ (mergeLeft l r key).cols := by
  simp only [mergeLeft, List.mem_append]
  exact Or.inl (List.mem_map.mpr ⟨key, hk, by simp [renameL]⟩)

/-- Reading a requested column of a subselected row reads the original
row's cell. -/
theorem getCell_selectRow (r : Row) (cs : List String) (c : String) (hc : c ∈ cs) :
    getCell (cs.map (fun c' => (c', getCell r c'))) c = getCell r c := by
  induction cs with
  | nil => cases hc
  | cons d ds ih =>
    by_cases hd : d = c
    · subst hd; simp [getCell, rowLookup]
    · have hc' : c ∈ ds := by
        cases hc with
        | head => exact absurd rfl hd
        | tail _ h => exact h
      simpa [getCell, rowLookup, hd] using ih hc'

/-- Looking up `c` among the (possibly `_x`-renamed) left labels of a
merged row finds nothing when `c` is not a left column and no `_x`-suffixed
label collides with it. -/
theorem rowLookup_leftPart_none (leftCols rightCols : List String) (key c : String)
    (l : Row) (hcl : c ∉ leftCols) (hx : ∀ s, s ++ "_x" ≠ c) :
    rowLookup (leftCols.map (fun d => (renameL rightCols key d, getCell l d))) c = none := by
  induction leftCols with
  | nil => rfl
  | cons d t ih =>
    have hd : renameL rightCols key d ≠ c := by
      unfold renameL
      by_cases hdr : d ≠ key ∧ d ∈ rightCols
      · rw [if_pos hdr]; exact hx d
      · rw [if_neg hdr]
        intro he
        exact hcl (he ▸ List.mem_cons_self d t)
    simp only [List.map_cons, rowLookup, hd, if_false]
    exact ih (fun hc => hcl (List.mem_cons_of_mem d hc))

/-- Looking up any column among labelled all-NaN entries yields NaN. -/
theorem getD_rowLookup_const_nan (xs : List String) (f : String → String) (c : String) :
    (rowLookup (xs.map (fun d => (f d, Val.nan))) c).getD Val.nan = Val.nan := by
  induction xs with
  | nil => rfl
  | cons d t ih =>
    by_cases h : f d = c
    · simp [rowLookup, h]
    · simpa [rowLookup, h] using ih

/-- A merged row built with no right match reads NaN — pandas' missing
marker, not a zero — at a right column that is not also a left column
(with no suffixed label colliding with it). -/
theorem getCell_mergedRow_unmatched (leftCols rightCols : List String) (key c : String)
    (l : Row) (_hcr : c ∈ rightCols) (hcl : c ∉ leftCols)
    (hx : ∀ s, s ++ "_x" ≠ c) :
    getCell (mergedRow leftCols rightCols key l none) c = Val.nan := by
  have hnone := rowLookup_leftPart_none leftCols rightCols key c l hcl hx
  unfold mergedRow
  simp only [getCell] at hnone ⊢
  rw [rowLookup_append, hnone, Option.none_or]
  exact getD_rowLookup_const_nan _ _ _

/-- A left row whose key value matches no right row contributes exactly its
NaN-padded merged row to the result. -/
theorem unmatched_mem_mergeLeft {l r : DataFrame} {key : String} {lr : Row}
    (hlr : lr ∈ l.rows)
    (hnm : r.rows.filter (fun rr => getCell rr key = getCell lr key) = []) :
    mergedRow l.cols r.cols key lr none ∈ (mergeLeft l r key).rows := by
  simp only [mergeLeft, List.mem_flatMap]
  refine ⟨lr, hlr, ?_⟩
  rw [hnm]
  exact List.mem_singleton.mpr rfl

/-- Subselection preserves the key-column values when the key is among the
requested columns. -/
theorem keyVals_select {df out : DataFrame} {cs : List String} {key : String}
    (hsel : select df cs = .ok out) (hk : key ∈ cs) :
    keyVals out key = keyVals df key := by
  unfold select at hsel
  split at hsel
  · cases hsel
    simp only [keyVals, List.map_map]
    exact List.map_congr_left (fun r _ => getCell_selectRow r cs key hk)
  · cases hsel

/-! ### The claims -/

open SubscriptionDataCollector

/-- C10: for every readable config file, `_load_api_keys` returns one fixed
mapping of the three source names to hardcoded placeholder strings; the
file contents never influence the credentials, so two constructions with
different readable config files yield identical api_keys. -/
theorem load_api_keys_const (fs₁ fs₂ : String → Option String) (p₁ p₂ c₁ c₂ : String)
    (h₁ : fs₁ p₁ = some c₁) (h₂ : fs₂ p₂ = some c₂) :
    _load_api_keys fs₁ p₁ = _load_api_keys fs₂ p₂ ∧
      _load_api_keys fs₁ p₁ = .ok fixedApiKeys := by
  simp [_load_api_keys, h₁, h₂, fixedApiKeys]

/-- C10 witness: two different readable files, same fixed mapping. -/
theorem load_api_keys_const_witness :
    _load_api_keys (fun _ => some "alpha") "a.yaml" =
      _load_api_keys (fun _ => some "beta") "b.yaml" ∧
    _load_api_keys (fun _ => some "alpha") "a.yaml" = .ok fixedApiKeys :=
  load_api_keys_const (fun _ => some "alpha") (fun _ => some "beta")
    "a.yaml" "b.yaml" "alpha" "beta" rfl rfl

/-- C4 counterexample: an empty credential string does not fail with any
configuration error — each fetch proceeds to the network and succeeds. -/
theorem fetch_empty_credential_counterexample :
    fetch_salesforce_data [("salesforce", "")] httpAll200 = .ok sfScenario ∧
    fetch_stripe_data [("stripe", "")] httpAll200 = .ok sfScenario ∧
    fetch_google_analytics_data [("google_analytics", "")] httpAll200 1000 "970" =
      .ok sfScenario :=
  ⟨rfl, rfl, rfl⟩

/-- C4 amended: a missing credential key fails with `KeyError` uniformly in
the transport (hence before any network attempt); a present credential —
empty or not — is never validated: the request is issued with it as the
bearer token, and no ConfigurationError exists in the module. -/
theorem fetch_credential_keyerror (api : List (String × String)) :
    (api.lookup "salesforce" = none →
      ∀ http : Http, fetch_salesforce_data api http = .error (.keyError "salesforce")) ∧
    (api.lookup "stripe" = none →
      ∀ http : Http, fetch_stripe_data api http = .error (.keyError "stripe")) ∧
    (api.lookup "google_analytics" = none →
      ∀ (http : Http) (today : Nat) (sd : String),
        fetch_google_analytics_data api http today sd =
          .error (.keyError "google_analytics")) ∧
    (∀ cred, api.lookup "salesforce" = some cred →
      ∀ http : Http, fetch_salesforce_data api http =
        runRequest http (salesforceRequest cred)) := by
  refine ⟨?_, ?_, ?_, ?_⟩
  · intro h http
    simp [fetch_salesforce_data, h]
  · intro h http
    simp [fetch_stripe_data, h]
  · intro h http today sd
    simp [fetch_google_analytics_data, h]
  · intro cred h http
    simp [fetch_salesforce_data, h]

/-- C4 witness: with no `salesforce` key the fetch raises `KeyError`; with
an empty credential it runs the request regardless. -/
theorem fetch_credential_keyerror_witness :
    fetch_salesforce_data [] httpAll200 = .error (.keyError "salesforce") ∧
    fetch_salesforce_data [("salesforce", "")] httpAll200 =
      runRequest httpAll200 (salesforceRequest "") :=
  ⟨(fetch_credential_keyerror []).1 rfl httpAll200,
   (fetch_credential_keyerror [("salesforce", "")]).2.2.2 "" rfl httpAll200⟩

/-- C7 counterexample: the Salesforce and Stripe fetches issue requests
with no query parameters at all — no `start-date`/`end-date` window — so
not every source is queried over the trailing 30 days. -/
theorem window_params_counterexample :
    (salesforceRequest "your_salesforce_key").params = [] ∧
    (stripeRequest "your_stripe_key").params = [] ∧
    fetch_salesforce_data fixedApiKeys httpAll200 =
      runRequest httpAll200 (salesforceRequest "your_salesforce_key") ∧
    fetch_stripe_data fixedApiKeys httpAll200 =
      runRequest httpAll200 (stripeRequest "your_stripe_key") :=
  ⟨rfl, rfl, rfl, rfl⟩

/-- C7 amended: only the Google Analytics source is windowed —
`collect_all_data` hands it `start_date = today - 30 days`, the fetch adds
`end_date = today`, and both travel as query parameters; the Salesforce
and Stripe requests carry no parameters, and the collection outcome
depends on the transport only at those unwindowed requests plus the GA
request over exactly the default window. -/
theorem collect_window_only_ga :
    (∀ cred, (salesforceRequest cred).params = [] ∧ (stripeRequest cred).params = []) ∧
    (∀ cred sd ed, (gaRequest cred sd ed).params =
      [("start-date", sd), ("end-date", ed)]) ∧
    (∀ (api : List (String × String)) (http : Http) (today : Nat) (cred : String),
      api.lookup "google_analytics" = some cred →
      fetch_google_analytics_data api http today (fmtDate (today - 30)) =
        runRequest http (gaRequest cred (fmtDate (today - 30)) (fmtDate today))) ∧
    (∀ (api : List (String × String)) (http http' : Http) (today : Nat),
      (∀ cred, http (salesforceRequest cred) = http' (salesforceRequest cred)) →
      (∀ cred, http (stripeRequest cred) = http' (stripeRequest cred)) →
      (∀ cred, http (gaRequest cred (fmtDate (today - 30)) (fmtDate today)) =
        http' (gaRequest cred (fmtDate (today - 30)) (fmtDate today))) →
      collect_all_data api http today = collect_all_data api http' today) := by
  refine ⟨fun cred => ⟨rfl, rfl⟩, fun cred sd ed => rfl, ?_, ?_⟩
  · intro api http today cred h
    simp [fetch_google_analytics_data, h]
  · intro api http http' today h1 h2 h3
    have hsf : fetch_salesforce_data api http = fetch_salesforce_data api http' := by
      unfold fetch_salesforce_data runRequest
      simp only [h1]

    have hst : fetch_stripe_data api http = fetch_stripe_data api http' := by
      unfold fetch_stripe_data runRequest
      simp only [h2]

    have hga : fetch_google_analytics_data api http today (fmtDate (today - 30)) =
        fetch_google_analytics_data api http' today (fmtDate (today - 30)) := by
      unfold fetch_google_analytics_data runRequest
      simp only [h3]

    unfold collect_all_data
    simp only [hsf, hst, hga]

/-- C7 witness: the GA fetch at the default window, concretely, and the
transport-dependence fact at a concrete transport pair. -/
theorem collect_window_only_ga_witness :
    fetch_google_analytics_data fixedApiKeys httpAll200 1000 (fmtDate (1000 - 30)) =
      runRequest httpAll200 (gaRequest "your_ga_key" (fmtDate (1000 - 30)) (fmtDate 1000)) ∧
    collect_all_data fixedApiKeys httpScenario 1000 =
      collect_all_data fixedApiKeys httpScenario 1000 :=
  ⟨collect_window_only_ga.2.2.1 fixedApiKeys httpAll200 1000 "your_ga_key" rfl,
   collect_window_only_ga.2.2.2 fixedApiKeys httpScenario httpScenario 1000
     (fun _ => rfl) (fun _ => rfl) (fun _ => rfl)⟩

/-- C3 counterexample: when the usage-analytics endpoint answers HTTP 500,
`collect_all_data` raises exactly the `RequestException` the GA fetch
raised — no CollectionError wrapper exists in the module — and returns no
table. -/
theorem collect_error_unwrapped_counterexample :
    collect_all_data fixedApiKeys httpGA500 1000 =
      .error (.requestException "HTTP 500 for url: https://api.google-analytics.com/data") ∧
    fetch_google_analytics_data fixedApiKeys httpGA500 1000 (fmtDate (1000 - 30)) =
      .error (.requestException "HTTP 500 for url: https://api.google-analytics.com/data") :=
  ⟨rfl, rfl⟩

/-- C3 amended: on any source fetch failure, `collect_all_data` fails by
re-raising the originating exception unchanged (the first failing source
in the order salesforce, stripe, google_analytics) and returns no table. -/
theorem collect_error_passthrough (api : List (String × String)) (http : Http)
    (today : Nat) (e : PyError) :
    (fetch_salesforce_data api http = .error e →
      collect_all_data api http today = .error e) ∧
    (∀ sf, fetch_salesforce_data api http = .ok sf →
      fetch_stripe_data api http = .error e →
      collect_all_data api http today = .error e) ∧
    (∀ sf st, fetch_salesforce_data api http = .ok sf →
      fetch_stripe_data api http = .ok st →
      fetch_google_analytics_data api http today (fmtDate (today - 30)) = .error e →
      collect_all_data api http today = .error e) := by
  refine ⟨?_, ?_, ?_⟩
  · intro h
    simp [collect_all_data, h, Bind.bind, Except.instMonad, Except.bind]
  · intro sf h1 h2
    simp [collect_all_data, h1, h2, Bind.bind, Except.instMonad, Except.bind]
  · intro sf st h1 h2 h3
    simp [collect_all_data, h1, h2, h3, Bind.bind, Except.instMonad, Except.bind]

/-- C3 witness: the GA failure propagated through a full collection at a
concrete transport. -/
theorem collect_error_passthrough_witness :
    collect_all_data fixedApiKeys httpGA500 1000 =
      .error (.requestException "HTTP 500 for url: https://api.google-analytics.com/data") :=
  (collect_error_passthrough fixedApiKeys httpGA500 1000
      (.requestException "HTTP 500 for url: https://api.google-analytics.com/data")).2.2
    sfScenario stScenario rfl rfl rfl

/-- Inversion of a successful collection: the three fetches and both
subselections succeeded, the join key was present on both sides of each
merge, and the result is the double left merge. -/
theorem collect_ok_inversion (api : List (String × String)) (http : Http)
    (today : Nat) (t : DataFrame)
    (h : collect_all_data api http today = .ok t) :
    ∃ sf st ga stSel gaSel,
      fetch_salesforce_data api http = .ok sf ∧
      fetch_stripe_data api http = .ok st ∧
      fetch_google_analytics_data api http today (fmtDate (today - 30)) = .ok ga ∧
      select st ["subscription_id", "status", "created_at"] = .ok stSel ∧
      select ga ["subscription_id", "session_count", "revenue"] = .ok gaSel ∧
      "subscription_id" ∈ sf.cols ∧ "subscription_id" ∈ stSel.cols ∧
      "subscription_id" ∈ (mergeLeft sf stSel "subscription_id").cols ∧
      "subscription_id" ∈ gaSel.cols ∧
      t = mergeLeft (mergeLeft sf stSel "subscription_id") gaSel "subscription_id" := by
  cases h1 : fetch_salesforce_data api http with
  | error e => simp [collect_all_data, h1, Bind.bind, Except.instMonad, Except.bind] at h
  | ok sf =>
  cases h2 : fetch_stripe_data api http with
  | error e => simp [collect_all_data, h1, h2, Bind.bind, Except.instMonad, Except.bind] at h
  | ok st =>
  cases h3 : fetch_google_analytics_data api http today (fmtDate (today - 30)) with
  | error e =>
    simp [collect_all_data, h1, h2, h3, Bind.bind, Except.instMonad, Except.bind] at h
  | ok ga =>
  cases h4 : select st ["subscription_id", "status", "created_at"] with
  | error e =>
    simp [collect_all_data, h1, h2, h3, h4, Bind.bind, Except.instMonad, Except.bind] at h
  | ok stSel =>
  by_cases hm1 : "subscription_id" ∈ sf.cols ∧ "subscription_id" ∈ stSel.cols
  case neg =>
    simp [collect_all_data, h1, h2, h3, h4, mergeOn, hm1, Bind.bind, Except.instMonad,
      Except.bind] at h
  case pos =>
  cases h5 : select ga ["subscription_id", "session_count", "revenue"] with
  | error e =>
    simp [collect_all_data, h1, h2, h3, h4, h5, mergeOn, hm1, Bind.bind, Except.instMonad,
      Except.bind] at h
  | ok gaSel =>
  by_cases hm2 : "subscription_id" ∈ (mergeLeft sf stSel "subscription_id").cols ∧
      "subscription_id" ∈ gaSel.cols
  case neg =>
    simp [collect_all_data, h1, h2, h3, h4, h5, mergeOn, hm1, hm2, Bind.bind,
      Except.instMonad, Except.bind] at h
  case pos =>
    have ht : mergeLeft (mergeLeft sf stSel "subscription_id") gaSel "subscription_id" = t := by
      simp [collect_all_data, h1, h2, h3, h4, h5, mergeOn, hm1, hm2, Bind.bind,
        Except.instMonad, Except.bind] at h
      exact h
    exact ⟨sf, st, ga, stSel, gaSel, rfl, rfl, rfl, h4, h5, hm1.1, hm1.2, hm2.1, hm2.2,
      ht.symm⟩

/-- C1 counterexample: with a Stripe body carrying two rows for the same
subscription identifier, the merged table has three rows while the primary
Salesforce result has two — a secondary merge added a row. -/
theorem collect_rowcount_counterexample :
    fetch_salesforce_data fixedApiKeys httpDup = .ok sfScenario ∧
    sfScenario.rows.length = 2 ∧
    (collect_all_data fixedApiKeys httpDup 1000).map (fun t => t.rows.length) = .ok 3 :=
  ⟨rfl, rfl, rfl⟩

/-- C1 amended: when every source fetch succeeds and each secondary source
has at most one row per subscription identifier, the collected table has
exactly as many rows as the primary Salesforce result. -/
theorem collect_rowcount_eq_primary (api : List (String × String)) (http : Http)
    (today : Nat) (sf st ga t : DataFrame)
    (h1 : fetch_salesforce_data api http = .ok sf)
    (h2 : fetch_stripe_data api http = .ok st)
    (h3 : fetch_google_analytics_data api http today (fmtDate (today - 30)) = .ok ga)
    (h4 : collect_all_data api http today = .ok t)
    (h5 : (keyVals st "subscription_id").Nodup)
    (h6 : (keyVals ga "subscription_id").Nodup) :
    t.rows.length = sf.rows.length := by
  obtain ⟨sf', st', ga', stSel, gaSel, g1, g2, g3, g4, g5, _, _, _, _, ht⟩ :=
    collect_ok_inversion api http today t h4
  rw [h1] at g1
  injection g1 with e1
  subst e1
  rw [h2] at g2
  injection g2 with e2
  subst e2
  rw [h3] at g3
  injection g3 with e3
  subst e3
  have hnd1 : (keyVals stSel "subscription_id").Nodup := by
    rw [keyVals_select g4 (by simp)]
    exact h5
  have hnd2 : (keyVals gaSel "subscription_id").Nodup := by
    rw [keyVals_select g5 (by simp)]
    exact h6
  rw [ht, mergeLeft_length _ _ _ hnd2, mergeLeft_length _ _ _ hnd1]

/-- C1 witness: the scenario collection, where both secondary bodies are
key-unique, returns exactly as many rows as Salesforce did. -/
theorem collect_rowcount_eq_primary_witness :
    scenarioOut.rows.length = sfScenario.rows.length :=
  collect_rowcount_eq_primary fixedApiKeys httpScenario 1000 sfScenario stScenario
    gaScenario scenarioOut rfl rfl rfl rfl (by decide) (by decide)

/-- C2: every row of a collected table carries a subscription identifier of
the primary Salesforce result — an identifier present only in a secondary
source never appears as a row. -/
theorem collect_ids_subset_primary (api : List (String × String)) (http : Http)
    (today : Nat) (sf t : DataFrame)
    (h1 : fetch_salesforce_data api http = .ok sf)
    (h4 : collect_all_data api http today = .ok t) :
    ∀ row ∈ t.rows, getCell row "subscription_id" ∈ keyVals sf "subscription_id" := by
  obtain ⟨sf', st', ga', stSel, gaSel, g1, g2, g3, g4, g5, hk1, _, hk3, _, ht⟩ :=
    collect_ok_inversion api http today t h4
  rw [h1] at g1
  injection g1 with e1
  subst e1
  subst ht
  intro row hrow
  have step2 := mergeLeft_key_sub hk3 append_x_ne_subscription_id row hrow
  simp only [keyVals, List.mem_map] at step2
  obtain ⟨m1row, hm1row, heq⟩ := step2
  have step1 := mergeLeft_key_sub hk1 append_x_ne_subscription_id m1row hm1row
  rw [← heq]
  exact step1

/-- C2 witness: the S1 row of the scenario output carries an identifier of
the primary result. -/
theorem collect_ids_subset_primary_witness :
    getCell [("subscription_id", Val.str "S1"), ("status", Val.nan), ("created_at", Val.nan),
        ("session_count", Val.int 2), ("revenue", Val.int 10)] "subscription_id" ∈
      keyVals sfScenario "subscription_id" :=
  collect_ids_subset_primary fixedApiKeys httpScenario 1000 sfScenario scenarioOut
    rfl rfl _ (by decide)

/-- C5: a primary row with no match in a secondary source is kept, with the
missing secondary fields read as NaN — an explicit missing marker, never a
zero; and the spec scenario collects to exactly the expected table. -/
theorem merge_missing_markers :
    (∀ (l r : DataFrame) (key c : String) (lr : Row),
      lr ∈ l.rows →
      r.rows.filter (fun rr => getCell rr key = getCell lr key) = [] →
      c ∈ r.cols → c ∉ l.cols → (∀ s, s ++ "_x" ≠ c) →
      mergedRow l.cols r.cols key lr none ∈ (mergeLeft l r key).rows ∧
        getCell (mergedRow l.cols r.cols key lr none) c = Val.nan) ∧
    collect_all_data fixedApiKeys httpScenario 1000 = .ok scenarioOut := by
  constructor
  · intro l r key c lr hlr hnm hcr hcl hx
    exact ⟨unmatched_mem_mergeLeft hlr hnm,
      getCell_mergedRow_unmatched l.cols r.cols key c lr hcr hcl hx⟩
  · rfl

/-- C5 witness: in the scenario, S1 has no Stripe match and its merged row
is kept with `status` read as NaN. -/
theorem merge_missing_markers_witness :
    mergedRow sfScenario.cols stScenario.cols "subscription_id"
        [("subscription_id", Val.str "S1")] none ∈
      (mergeLeft sfScenario stScenario "subscription_id").rows ∧
    getCell (mergedRow sfScenario.cols stScenario.cols "subscription_id"
        [("subscription_id", Val.str "S1")] none) "status" = Val.nan :=
  merge_missing_markers.1 sfScenario stScenario "subscription_id" "status"
    [("subscription_id", Val.str "S1")] (by decide) (by decide) (by decide) (by decide)
    append_x_ne_status

/-- C6 counterexample: when Salesforce already carries a `status` column,
the collected table has no single `status` field chosen by precedence —
it keeps both copies under the suffixed names `status_x` and `status_y`. -/
theorem merge_collision_counterexample :
    (collect_all_data fixedApiKeys httpCollide 1000).map (fun t => t.cols) =
      .ok ["subscription_id", "status_x", "status_y", "created_at",
           "session_count", "revenue"] ∧
    ("status" : String) ∉ ["subscription_id", "status_x", "status_y", "created_at",
           "session_count", "revenue"] :=
  ⟨rfl, by decide⟩

/-- C6 amended: a field name supplied by both sides of a merge is not
resolved to one field by precedence; deterministically, the left copy is
kept as `c_x` and the right copy as `c_y`, and no field named `c` remains
(absent further suffix collisions). -/
theorem merge_collision_suffixed (l r : DataFrame) (key c : String)
    (hcl : c ∈ l.cols) (hcr : c ∈ r.cols) (hck : c ≠ key)
    (hx : ∀ s, s ++ "_x" ≠ c) (hy : ∀ s, s ++ "_y" ≠ c) :
    (c ++ "_x") ∈ (mergeLeft l r key).cols ∧
      (c ++ "_y") ∈ (mergeLeft l r key).cols ∧
      c ∉ (mergeLeft l r key).cols := by
  refine ⟨?_, ?_, ?_⟩
  · simp only [mergeLeft, List.mem_append]
    exact Or.inl (List.mem_map.mpr ⟨c, hcl, by unfold renameL; rw [if_pos ⟨hck, hcr⟩]⟩)
  · simp only [mergeLeft, List.mem_append]
    refine Or.inr (List.mem_map.mpr ⟨c, ?_, ?_⟩)
    · exact List.mem_filter.mpr ⟨hcr, by simpa using hck⟩
    · unfold renameR; rw [if_pos ⟨hck, hcl⟩]
  · intro hmem
    simp only [mergeLeft, List.mem_append] at hmem
    rcases hmem with hL | hR
    · obtain ⟨d, hd, hde⟩ := List.mem_map.mp hL
      by_cases hdc : d = c
      · subst hdc
        unfold renameL at hde
        rw [if_pos ⟨hck, hcr⟩] at hde
        exact hx d hde
      · unfold renameL at hde
        by_cases hdr : d ≠ key ∧ d ∈ r.cols
        · rw [if_pos hdr] at hde
          exact hx d hde
        · rw [if_neg hdr] at hde
          exact hdc hde
    · obtain ⟨d, hd, hde⟩ := List.mem_map.mp hR
      by_cases hdc : d = c
      · subst hdc
        unfold renameR at hde
        rw [if_pos ⟨hck, hcl⟩] at hde
        exact hy d hde
      · unfold renameR at hde
        by_cases hdl : d ≠ key ∧ d ∈ l.cols
        · rw [if_pos hdl] at hde
          exact hy d hde
        · rw [if_neg hdl] at hde
          exact hdc hde

/-- C6 witness: the `status` collision between the Salesforce and Stripe
bodies, concretely. -/
theorem merge_collision_suffixed_witness :
    ("status" ++ "_x") ∈ (mergeLeft sfCollide stScenario "subscription_id").cols ∧
      ("status" ++ "_y") ∈ (mergeLeft sfCollide stScenario "subscription_id").cols ∧
      "status" ∉ (mergeLeft sfCollide stScenario "subscription_id").cols :=
  merge_collision_suffixed sfCollide stScenario "subscription_id" "status"
    (by decide) (by decide) (by decide) append_x_ne_status append_y_ne_status

namespace AIModelManager

/-- A call that finds a fitted scaler leaves the manager state unchanged:
training without explicit retrain reuses the state, prediction never
writes. -/
theorem stepOp_fitted {m : State} {st : NormalizationState}
    (hm : m.scaler = some st) (op : MLOp) : stepOp m op = m := by
  cases op with
  | predict fs x => rfl
  | train fs x =>
    simp only [stepOp, train_churn_model, hm]
    cases h : transform st fs x with
    | error e => simp [h, Except.map]
    | ok xs => simp [h, Except.map]

/-- A fitted manager is a fixed point of any sequence of training and
prediction calls without explicit retrain. -/
theorem foldl_stepOp_fitted (ops : List MLOp) :
    ∀ (m : State) (st : NormalizationState), m.scaler = some st →
      ops.foldl stepOp m = m := by
  induction ops with
  | nil => intro m st hm; rfl
  | cons op t ih =>
    intro m st hm
    rw [List.foldl_cons, stepOp_fitted hm op]
    exact ih m st hm

/-- C8: within one manager lifetime the normalization state is created at
most once — the first training call fits and stores it, and every later
training or prediction call without an explicit retrain leaves exactly the
first-fitted parameters in place. -/
theorem scaler_fit_once (features : List String) (x : List (List ℚ))
    (m₁ : State) (normed : List (List ℚ)) (ops : List MLOp)
    (h : train_churn_model init features x false = .ok (m₁, normed)) :
    m₁.scaler = some (fitNormalization features x) ∧
    (ops.foldl stepOp m₁).scaler = some (fitNormalization features x) := by
  have hm : m₁ = { scaler := some (fitNormalization features x) } := by
    simp [train_churn_model, init] at h
    exact h.1.symm
  subst hm
  exact ⟨rfl, by rw [foldl_stepOp_fitted ops _ _ rfl]⟩

/-- C8 witness: one concrete lifetime — train, then a prediction and a
further training call — keeps the first fitted parameters. -/
theorem scaler_fit_once_witness :
    ({ scaler := some (fitNormalization ["revenue"] [[1], [3]]) } : State).scaler =
      some (fitNormalization ["revenue"] [[1], [3]]) ∧
    (([MLOp.predict ["revenue"] [[2]], MLOp.train ["revenue"] [[7], [9]]].foldl stepOp
        { scaler := some (fitNormalization ["revenue"] [[1], [3]]) }).scaler =
      some (fitNormalization ["revenue"] [[1], [3]])) :=
  scaler_fit_once ["revenue"] [[1], [3]]
    { scaler := some (fitNormalization ["revenue"] [[1], [3]]) }
    (applyNorm (fitNormalization ["revenue"] [[1], [3]]) [[1], [3]])
    [MLOp.predict ["revenue"] [[2]], MLOp.train ["revenue"] [[7], [9]]] rfl

/-- C9: a fitted normalization state transforms only its own feature list —
any list differing in length or names raises `ShapeMismatchError`; in
particular training with `revenue, session_count, status` and predicting
with `revenue, session_count` errors rather than producing output. -/
theorem transform_shape_mismatch :
    (∀ (st : NormalizationState) (fl : List String) (x : List (List ℚ)),
      fl ≠ st.features →
      transform st fl x = .error (.shapeMismatchError st.features fl)) ∧
    (∀ (x y : List (List ℚ)) (m : State) (normed : List (List ℚ)),
      train_churn_model init ["revenue", "session_count", "status"] x false =
        .ok (m, normed) →
      predict_churn m ["revenue", "session_count"] y =
        .error (.shapeMismatchError ["revenue", "session_count", "status"]
          ["revenue", "session_count"])) := by
  constructor
  · intro st fl x hne
    simp [transform, hne]
  · intro x y m normed h
    have hm : m.scaler =
        some (fitNormalization ["revenue", "session_count", "status"] x) := by
      simp [train_churn_model, init] at h
      rw [← h.1]
    simp [predict_churn, hm, transform, fitNormalization]

/-- C9 witness: the spec scenario, concretely. -/
theorem transform_shape_mismatch_witness :
    predict_churn { scaler := some (fitNormalization ["revenue", "session_count", "status"]
        [[1, 2, 3]]) } ["revenue", "session_count"] [[4, 5]] =
      .error (.shapeMismatchError ["revenue", "session_count", "status"]
        ["revenue", "session_count"]) :=
  transform_shape_mismatch.2 [[1, 2, 3]] [[4, 5]]
    { scaler := some (fitNormalization ["revenue", "session_count", "status"] [[1, 2, 3]]) }
    (applyNorm (fitNormalization ["revenue", "session_count", "status"] [[1, 2, 3]])
      [[1, 2, 3]]) rfl

end AIModelManager
